import Mathlib

/-!
Verification development for the wildlife-cameras repository.

The embedding below models, in Lean, the concurrency-relevant and
functional behaviour of two Python source files:

* `rpi-cam-server/rpi-cam-server.py` — the `CameraManager` class: the
  recording-session flag guarded by `_record_lock`, the clip-recording
  control flow of `record_clip` and `start_record_clip_async`, the
  restart sequence `_restart_camera`, still capture `capture_still`,
  and the motion-detection trigger loop `_motion_loop`.
* `hub/dashboard.py` — the `_run` helper that executes a subprocess and
  returns a structured result dictionary, in particular its
  `subprocess.TimeoutExpired` branch and its output truncation.

Device calls that can fail (`picam2.start_recording`, `stop_recording`,
`configure`, `start`, `FfmpegOutput` construction) are modelled by a
record of booleans saying which calls succeed; the embedding then
reproduces the exact try/except/finally control flow of the source.
Lock-protected regions of the Python code are single atomic steps of the
models, since each such region touches exactly one piece of shared
state.
-/

namespace WildlifeCameras

/-! ## Recording-session flag machine

`CameraManager` guards the boolean `self._recording` with
`self._record_lock`.  Exactly three code regions hold that lock:

1. `start_record_clip_async` (lines 239-241): reads the flag, returns
   `False` when it is set; otherwise it releases the lock, spawns the
   `record_clip` thread and returns `True` WITHOUT setting the flag.
2. `record_clip` entry (lines 193-196): test-and-set; returns `None`
   when the flag is already set, otherwise sets it and proceeds.
3. `record_clip` cleanup (lines 231-232, inside `finally`): clears the
   flag.

Each region is one atomic event of the machine below; `recStep` returns
the flag after the event together with the boolean outcome that the
region produces (`accepted` for a request, `proceeds` for a begin,
a dummy `true` for cleanup).
-/

/-- The three atomic lock-held regions touching `_recording`. -/
inductive RecEvent
  | request
  | beginWork
  | cleanup
deriving DecidableEq, Repr

/-- One atomic step of the `_record_lock` machine: given the current
`_recording` flag and an event, return the new flag and the outcome of
the region (for `request`: the value returned by
`start_record_clip_async`; for `beginWork`: whether `record_clip`
proceeds past its guard; for `cleanup`: irrelevant, `true`). -/
def recStep : Bool → RecEvent → Bool × Bool
  | flag, .request => (flag, !flag)
  | flag, .beginWork => (true, !flag)
  | _, .cleanup => (false, true)

/-- Whether an event, executed with the given flag, is a `request` that
returns `accepted = true`. -/
def isAcceptedRequest (flag : Bool) : RecEvent → Bool
  | .request => (recStep flag .request).2
  | .beginWork => false
  | .cleanup => false

/-- Whether an event, executed with the given flag, is a `beginWork`
that proceeds past the `record_clip` guard (actually starts recording
work). -/
def isProceedingBegin (flag : Bool) : RecEvent → Bool
  | .request => false
  | .beginWork => (recStep flag .beginWork).2
  | .cleanup => false

/-- Number of `start_record_clip_async` calls in the event list that
return `accepted = true`, starting from the given flag value. -/
def acceptedCount : Bool → List RecEvent → Nat
  | _, [] => 0
  | flag, e :: rest =>
      (if isAcceptedRequest flag e then 1 else 0) +
        acceptedCount (recStep flag e).1 rest

/-- Number of `record_clip` invocations in the event list that pass
their test-and-set guard and actually begin recording work, starting
from the given flag value. -/
def procCount : Bool → List RecEvent → Nat
  | _, [] => 0
  | flag, e :: rest =>
      (if isProceedingBegin flag e then 1 else 0) +
        procCount (recStep flag e).1 rest

/-! ## Clip recording control flow

`record_clip` (lines 188-232) and `_restart_camera` (lines 110-122).
A `ClipDevice` records which of the fallible device calls succeed. -/

/-- Which of the fallible calls made directly by `record_clip` succeed:
`FfmpegOutput` construction, `picam2.start_recording`, and
`picam2.stop_recording`.  The internals of the `_restart_camera` call
that `record_clip` makes are irrelevant to `record_clip`: their
failures are swallowed by its `try/except Exception: pass`. -/
structure ClipDevice where
  mkOutputOk : Bool
  startRecordingOk : Bool
  stopRecordingOk : Bool
deriving DecidableEq, Repr

/-- Which of the four device calls made by `_restart_camera` succeed. -/
structure RestartDevice where
  stopRecordingOk : Bool
  stopOk : Bool
  configureOk : Bool
  startOk : Bool
deriving DecidableEq, Repr

/-- The four device calls made, in order, by `_restart_camera`. -/
inductive CamOp
  | stopRecording
  | stop
  | configure
  | start
deriving DecidableEq, Repr

/-- Model of `_restart_camera` (lines 110-122).  Returns the list of
device calls attempted, in order, together with `some op` when the call
`op` raised and the exception propagated out of `_restart_camera`
(`none` when `_restart_camera` returned normally).  `stop_recording`
and `stop` are each wrapped in their own `try/except Exception: pass`,
so their failures never propagate and never stop the sequence (the
control flow does not consult `dev.stopRecordingOk` or `dev.stopOk`);
`configure` and `start` are not wrapped, so the first of them that
fails aborts the sequence and its exception propagates. -/
def _restart_camera (dev : RestartDevice) : List CamOp × Option CamOp :=
  if dev.configureOk = false then
    ([CamOp.stopRecording, CamOp.stop, CamOp.configure], some CamOp.configure)
  else if dev.startOk = false then
    ([CamOp.stopRecording, CamOp.stop, CamOp.configure, CamOp.start],
      some CamOp.start)
  else
    ([CamOp.stopRecording, CamOp.stop, CamOp.configure, CamOp.start], none)

/-- The actions `record_clip` can perform after passing its guard:
building the FfmpegOutput sink, starting the encoder, sleeping out the
duration, stopping the encoder, invoking `_restart_camera`, closing the
sink, and clearing the `_recording` flag. -/
inductive ClipAction
  | mkOutput
  | startRec
  | sleepFor (seconds : Int)
  | stopRec
  | restart
  | closeOutput
  | clearFlag
deriving DecidableEq, Repr

/-- What `record_clip` produces: `busy` when the guard made it return
`None`, `ok path` when it returned the clip path, `error` when an
exception propagated out of it (after the `finally` block ran). -/
inductive ClipOutcome
  | busy
  | ok (path : String)
  | error
deriving DecidableEq, Repr

/-- The argument of `time.sleep` on line 210: `max(1, int(duration))`. -/
def recSleep (duration : Int) : Int := max 1 duration

/-- Model of `record_clip` (lines 188-232).  `busy` is the value of
`self._recording` observed by the test-and-set guard; `ts` the
timestamp used in the file name.  Returns the outcome together with the
ordered list of actions performed.  Control flow mirrors the source:
the body is a `try` whose `finally` closes the sink (when one was
built, swallowing close failures) and then clears the flag under
`_record_lock`; `_restart_camera` is reached only after
`stop_recording` succeeded, and its own failure is swallowed by the
`try/except Exception: pass` around it (so `restart` is attempted there
whatever `dev.configureOk` and `dev.startOk` are). -/
def record_clip (dev : ClipDevice) (busy : Bool) (duration : Int)
    (baseDir ts : String) : ClipOutcome × List ClipAction :=
  if busy then (ClipOutcome.busy, [])
  else if dev.mkOutputOk = false then
    (ClipOutcome.error, [ClipAction.mkOutput, ClipAction.clearFlag])
  else if dev.startRecordingOk = false then
    (ClipOutcome.error,
      [ClipAction.mkOutput, ClipAction.startRec,
       ClipAction.closeOutput, ClipAction.clearFlag])
  else if dev.stopRecordingOk = false then
    (ClipOutcome.error,
      [ClipAction.mkOutput, ClipAction.startRec,
       ClipAction.sleepFor (recSleep duration), ClipAction.stopRec,
       ClipAction.closeOutput, ClipAction.clearFlag])
  else
    (ClipOutcome.ok (baseDir ++ "/clip_" ++ ts ++ ".mp4"),
      [ClipAction.mkOutput, ClipAction.startRec,
       ClipAction.sleepFor (recSleep duration), ClipAction.stopRec,
       ClipAction.restart, ClipAction.closeOutput, ClipAction.clearFlag])

/-! ## Still capture

`capture_still` (lines 167-184).  A frame is an abstract immutable
pixel buffer; the camera state holds the shared preview slot
(`self._preview_frame`, possibly empty) and the frame a direct
`picam2.capture_array("main")` pull would produce. -/

/-- An abstract immutable frame (2-D pixel buffer), identified by its
contents. -/
structure Frame where
  pixels : Nat
deriving DecidableEq, Repr

/-- The state `capture_still` reads: the shared preview-frame slot and
the frame a direct device pull would return. -/
structure CamState where
  previewFrame : Option Frame
  deviceFrame : Frame
deriving DecidableEq, Repr

/-- What one `capture_still` call produces: the returned path, the
frame content written (encoded) to that path by `cv2.imwrite`, and
whether the device fallback `picam2.capture_array` was called. -/
structure StillResult where
  path : String
  written : Frame
  deviceCalled : Bool
deriving DecidableEq, Repr

/-- Model of `capture_still` (lines 167-184): build the timestamped
path under the media directory, copy the preview frame out of the slot
under `_frame_lock`; when the slot is empty, fall back to a direct
device pull under `_camera_lock`; write the frame to the path and
return it. -/
def capture_still (baseDir : String) (s : CamState) (ts : String) :
    StillResult :=
  let path := baseDir ++ "/still_" ++ ts ++ ".jpg"
  match s.previewFrame with
  | some f => { path := path, written := f, deviceCalled := false }
  | none => { path := path, written := s.deviceFrame, deviceCalled := true }

/-- A media directory as an association list from file path to written
frame content.  `cv2.imwrite` to an existing path overwrites it. -/
def writeFile : List (String × Frame) → String → Frame →
    List (String × Frame)
  | [], p, f => [(p, f)]
  | (q, g) :: rest, p, f =>
      if q = p then (p, f) :: rest else (q, g) :: writeFile rest p f

/-- `capture_still` together with its `cv2.imwrite` effect on the media
directory. -/
def capture_still_fs (baseDir : String) (s : CamState) (ts : String)
    (dir : List (String × Frame)) :
    StillResult × List (String × Frame) :=
  let r := capture_still baseDir s ts
  (r, writeFile dir r.path r.written)

/-! ## Motion-detection trigger loop

`_motion_loop` (lines 259-294).  Per-frame image processing
(grayscale, blur, diff, threshold, dilate, contours) is summarised by
the boolean `motion_detected` it yields for the iteration; the model
keeps the trigger-relevant state: the cooldown deadline and the list of
(trigger time, requested duration) pairs so far.  Times are rationals
standing for `time.time()` values. -/

/-- Cooldown window added to `cool_down_until` on line 291. -/
def motionCooldownWindow : ℚ := 40

/-- Duration passed to `start_record_clip_async` on line 290. -/
def motionClipDuration : Int := 30

/-- Default `duration` of `record_clip` / `start_record_clip_async`
(lines 188 and 234). -/
def defaultClipDuration : Int := 30

/-- The trigger-relevant state of `_motion_loop`: the cooldown deadline
`cool_down_until` and the motion-triggered recording requests issued so
far, each as (trigger instant, requested duration). -/
structure MotionState where
  coolDownUntil : ℚ
  triggers : List (ℚ × Int)
deriving DecidableEq, Repr

/-- Initial state of `_motion_loop` (lines 260-261): `prev_gray = None`
is irrelevant to triggering; `cool_down_until = 0`. -/
def motionInit : MotionState := { coolDownUntil := 0, triggers := [] }

/-- One iteration of `_motion_loop` (lines 287-291): when motion is
detected and `now > cool_down_until`, request a 30-second clip and set
`cool_down_until = now + 40` — regardless of whether the request was
accepted.  Otherwise the state is unchanged. -/
def motionIter (s : MotionState) (now : ℚ) (motionDetected : Bool) :
    MotionState :=
  if motionDetected = true ∧ s.coolDownUntil < now then
    { coolDownUntil := now + motionCooldownWindow,
      triggers := s.triggers ++ [(now, motionClipDuration)] }
  else s

/-- Run `_motion_loop` over a list of iterations, each given as the
`time.time()` value `now` and whether that iteration detected motion. -/
def motionRun (s : MotionState) : List (ℚ × Bool) → MotionState
  | [] => s
  | (now, m) :: rest => motionRun (motionIter s now m) rest

/-! ## Fleet dashboard `_run` helper

`hub/dashboard.py`, lines 61-88: run a command with a timeout and
return a result dictionary; on `subprocess.TimeoutExpired`, return a
structured failure result instead of letting the exception escape. -/

/-- How the subprocess ended: normal completion with a return code and
captured output, or `subprocess.TimeoutExpired` carrying whatever
output was captured before the timeout (each possibly `None`). -/
inductive RunOutcome
  | completed (returncode : Int) (stdout stderr : String)
  | timedOut (stdout stderr : Option String)
deriving DecidableEq, Repr

/-- The dictionary `_run` returns. -/
structure RunResult where
  ok : Bool
  returncode : Option Int
  stdout : String
  stderr : String
  seconds : ℚ
  cmd : String
deriving DecidableEq, Repr

/-- The output cap used by the `[-12000:]` slices on lines 75-76 and
84-85. -/
def outputCap : Nat := 12000

/-- Python string slice `s[-n:]`: the last `min n (length s)`
characters of `s`. -/
def lastChars (n : Nat) (s : String) : String :=
  { data := s.data.drop (s.data.length - n) }

/-- Python truthiness-based `a or b` for an optional string: `None` and
the empty string are both falsy. -/
def pyOrString (o : Option String) (dflt : String) : String :=
  match o with
  | some s => if s.data = [] then dflt else s
  | none => dflt

/-- Python `round(x, 2)`, applied to the elapsed seconds on lines 77
and 86. -/
def round2 (q : ℚ) : ℚ := (round (q * 100) : ℤ) / 100

/-- The single-quote character. -/
def sqChar : Char := Char.ofNat 39

/-- The double-quote character. -/
def dqChar : Char := Char.ofNat 34

/-- A character `shlex.quote` considers safe (needing no quoting):
ASCII letters, digits, and `_ @ % + = : , . / -`. -/
def shQuoteSafe (c : Char) : Bool :=
  c.isAlphanum || c == Char.ofNat 95 || c == Char.ofNat 64 ||
    c == Char.ofNat 37 || c == Char.ofNat 43 || c == Char.ofNat 61 ||
    c == Char.ofNat 58 || c == Char.ofNat 44 || c == Char.ofNat 46 ||
    c == Char.ofNat 47 || c == Char.ofNat 45

/-- The replacement `shlex.quote` applies inside the quoted body: a
single-quote becomes the five characters single-quote, double-quote,
single-quote, double-quote, single-quote; every other character is kept
as is. -/
def shQuoteChar (c : Char) : List Char :=
  if c = sqChar then [sqChar, dqChar, sqChar, dqChar, sqChar] else [c]

/-- Model of `shlex.quote`: the empty string becomes two single
quotes; a string of safe characters is returned unchanged; anything
else is wrapped in single quotes with embedded single quotes escaped. -/
def shlexQuote (s : String) : String :=
  if s.data = [] then { data := [sqChar, sqChar] }
  else if s.data.all shQuoteSafe then s
  else { data := [sqChar] ++ (s.data.map shQuoteChar).flatten ++ [sqChar] }

/-- The `"cmd"` field of the result: the command words, each quoted,
joined by single spaces (line 78 and 87). -/
def joinQuoted (cmd : List String) : String :=
  String.intercalate " " (cmd.map shlexQuote)

/-- Model of `_run` (lines 61-88).  `started` and `now` are the
`time.time()` values at entry and at the moment the result dictionary
is built.  Both the completion branch and the `TimeoutExpired` branch
return a structured `RunResult`; no exception escapes. -/
def _run (cmd : List String) (outcome : RunOutcome) (started now : ℚ) :
    RunResult :=
  match outcome with
  | .completed rc so se =>
      { ok := rc == 0
        returncode := some rc
        stdout := lastChars outputCap so
        stderr := lastChars outputCap se
        seconds := round2 (now - started)
        cmd := joinQuoted cmd }
  | .timedOut so se =>
      { ok := false
        returncode := none
        stdout := lastChars outputCap (pyOrString so "")
        stderr := lastChars outputCap (pyOrString se "Timed out")
        seconds := round2 (now - started)
        cmd := joinQuoted cmd }

/-- The string whose last `outputCap` characters become the `stdout`
field: the captured stdout, with the timeout branch defaulting a
missing capture to the empty string. -/
def capturedStdout : RunOutcome → String
  | .completed _ so _ => so
  | .timedOut so _ => pyOrString so ""

/-- The string whose last `outputCap` characters become the `stderr`
field: the captured stderr, with the timeout branch defaulting a
missing capture to `"Timed out"`. -/
def capturedStderr : RunOutcome → String
  | .completed _ _ se => se
  | .timedOut _ se => pyOrString se "Timed out"

/-! ## Helper lemmas -/

/-- While the `_recording` flag is set and no cleanup occurs, no
`record_clip` invocation passes its guard and no
`start_record_clip_async` call is accepted. -/
lemma counts_zero_of_flag_true (l : List RecEvent)
    (h : RecEvent.cleanup ∉ l) :
    procCount true l = 0 ∧ acceptedCount true l = 0 := by
  induction l with
  | nil => exact ⟨rfl, rfl⟩
  | cons e rest ih =>
    have hrest : RecEvent.cleanup ∉ rest := fun hm =>
      h (List.mem_cons_of_mem _ hm)
    cases e with
    | request =>
        simpa [procCount, acceptedCount, isProceedingBegin,
          isAcceptedRequest, recStep] using ih hrest
    | beginWork =>
        simpa [procCount, acceptedCount, isProceedingBegin,
          isAcceptedRequest, recStep] using ih hrest
    | cleanup => exact absurd (List.mem_cons_self _ _) h

/-- Starting idle, while no cleanup occurs at most one `record_clip`
invocation passes its guard. -/
lemma procCount_false_le_one (l : List RecEvent)
    (h : RecEvent.cleanup ∉ l) :
    procCount false l ≤ 1 := by
  induction l with
  | nil => exact Nat.zero_le 1
  | cons e rest ih =>
    have hrest : RecEvent.cleanup ∉ rest := fun hm =>
      h (List.mem_cons_of_mem _ hm)
    cases e with
    | request =>
        simpa [procCount, isProceedingBegin, recStep] using ih hrest
    | beginWork =>
        have := (counts_zero_of_flag_true rest hrest).1
        simp [procCount, isProceedingBegin, recStep, this]
    | cleanup => exact absurd (List.mem_cons_self _ _) h

/-- The Python slice `s[-n:]` is a suffix of `s`. -/
lemma lastChars_suffix (n : Nat) (s : String) :
    (lastChars n s).data <:+ s.data :=
  List.drop_suffix _ _

/-- The Python slice `s[-n:]` has length at most `n`. -/
lemma lastChars_length (n : Nat) (s : String) :
    (lastChars n s).length ≤ n := by
  show (s.data.drop (s.data.length - n)).length ≤ n
  rw [List.length_drop]
  omega

/-! ## Claim theorems -/

/-- C1 counterexample: `start_record_clip_async` only reads the
`_recording` flag under `_record_lock` and returns without setting it,
so two requests interleaved before the spawned `record_clip` thread
runs its test-and-set both return `accepted = true` with no cleanup in
between — the claimed at-most-one-accepted invariant fails, and so
does the claim that the session is marked active before the recording
work is launched (the flag is still `false` after an accepted
request). -/
theorem requestClip_double_accept_counterexample :
    acceptedCount false [RecEvent.request, RecEvent.request] = 2 ∧
    RecEvent.cleanup ∉ [RecEvent.request, RecEvent.request] ∧
    (recStep false RecEvent.request).1 = false ∧
    (recStep false RecEvent.request).2 = true := by decide

/-- C1 (amended): mutual exclusion is enforced at `record_clip` entry,
not in `start_record_clip_async`: in any interleaving of the
lock-held regions, at most one `record_clip` invocation passes its
test-and-set guard until a cleanup clears the flag, and while the flag
is set neither a further `record_clip` guard pass nor an accepted
request can occur before cleanup. -/
theorem record_clip_single_session (l : List RecEvent)
    (h : RecEvent.cleanup ∉ l) :
    procCount false l ≤ 1 ∧ procCount true l = 0 ∧
      acceptedCount true l = 0 :=
  ⟨procCount_false_le_one l h, (counts_zero_of_flag_true l h).1,
    (counts_zero_of_flag_true l h).2⟩

/-- Witness for C1 (amended) at a concrete event list: two
`record_clip` guard passes and a request, with no cleanup. -/
theorem record_clip_single_session_witness :
    procCount false
        [RecEvent.beginWork, RecEvent.beginWork, RecEvent.request] ≤ 1 ∧
      procCount true
        [RecEvent.beginWork, RecEvent.beginWork, RecEvent.request] = 0 ∧
      acceptedCount true
        [RecEvent.beginWork, RecEvent.beginWork, RecEvent.request] = 0 :=
  record_clip_single_session
    [RecEvent.beginWork, RecEvent.beginWork, RecEvent.request] (by decide)

/-- C2 counterexample: when `picam2.start_recording` raises, control
jumps straight to the `finally` block of `record_clip`, so the restart
sequence is never invoked — it is not unconditional.  The same happens
when `picam2.stop_recording` raises. -/
theorem record_clip_restart_skipped_counterexample :
    ClipAction.restart ∉
        (record_clip ⟨true, false, true⟩ false 30 "media" "t").2 ∧
      ClipAction.restart ∉
        (record_clip ⟨true, true, false⟩ false 30 "media" "t").2 := by
  decide

/-- C2 (amended): the restart sequence is invoked after a recording
exactly when the sink construction, `start_recording` and
`stop_recording` all succeeded; on those paths it is invoked whatever
the restart itself does (its failures are swallowed), while any
earlier failure skips it and runs only the `finally` cleanup. -/
theorem record_clip_restart_iff (dev : ClipDevice) (d : Int)
    (baseDir ts : String) :
    ClipAction.restart ∈ (record_clip dev false d baseDir ts).2 ↔
      dev.mkOutputOk = true ∧ dev.startRecordingOk = true ∧
        dev.stopRecordingOk = true := by
  obtain ⟨a, b, c⟩ := dev
  cases a <;> cases b <;> cases c <;> simp [record_clip]

/-- C3: on every exit path of the recording work the `finally` block
runs: clearing the `_recording` flag under `_record_lock` is the last
action on every path, the sink close immediately precedes it whenever
a sink was built, and once the flag is cleared a subsequent request is
accepted (`recStep` on the cleared flag yields `accepted = true`). -/
theorem record_clip_cleanup_every_path (dev : ClipDevice) (d : Int)
    (baseDir ts : String) (h : dev.mkOutputOk = true) :
    (∃ pre, (record_clip dev false d baseDir ts).2 =
        pre ++ [ClipAction.closeOutput, ClipAction.clearFlag]) ∧
      (∀ (dev2 : ClipDevice) (d2 : Int) (b2 t2 : String),
        ((record_clip dev2 false d2 b2 t2).2).getLast? =
          some ClipAction.clearFlag) ∧
      (∀ flag, recStep flag RecEvent.cleanup = (false, true)) ∧
      recStep false RecEvent.request = (false, true) := by
  refine ⟨?_, ?_, ?_, rfl⟩
  · obtain ⟨a, b, c⟩ := dev
    cases a with
    | false => exact absurd h (by simp)
    | true =>
        cases b with
        | false => exact ⟨[ClipAction.mkOutput, ClipAction.startRec], rfl⟩
        | true =>
            cases c with
            | false =>
                exact ⟨[ClipAction.mkOutput, ClipAction.startRec,
                  ClipAction.sleepFor (recSleep d), ClipAction.stopRec], rfl⟩
            | true =>
                exact ⟨[ClipAction.mkOutput, ClipAction.startRec,
                  ClipAction.sleepFor (recSleep d), ClipAction.stopRec,
                  ClipAction.restart], rfl⟩
  · intro dev2 d2 b2 t2
    obtain ⟨a, b, c⟩ := dev2
    cases a <;> cases b <;> cases c <;> rfl
  · intro flag
    cases flag <;> rfl

/-- Witness for C3 at a concrete device on which every call succeeds. -/
theorem record_clip_cleanup_every_path_witness :
    ∃ pre, (record_clip ⟨true, true, true⟩ false 30 "media" "t").2 =
      pre ++ [ClipAction.closeOutput, ClipAction.clearFlag] :=
  (record_clip_cleanup_every_path ⟨true, true, true⟩ 30 "media" "t" rfl).1

/-- C6 counterexample: failures of the `configure` and `start` steps of
`_restart_camera` are not caught inside it — they propagate to the
caller — so it is not the case that each step of the restart sequence
has its failure caught and ignored individually. -/
theorem restart_camera_propagates_counterexample :
    (_restart_camera ⟨true, true, false, true⟩).2 = some CamOp.configure ∧
      (_restart_camera ⟨true, true, true, false⟩).2 = some CamOp.start := by
  decide

/-- C6 (amended): `_restart_camera` runs, under the device lock and in
order, best-effort `stop_recording`, best-effort `stop`, `configure`,
`start`; the two best-effort steps are each wrapped in their own
try/except so their failures are ignored individually and never affect
the sequence, while `configure` and `start` are unwrapped: the
sequence raises no error exactly when both of them succeed. -/
theorem restart_camera_best_effort (dev : RestartDevice) :
    ((_restart_camera dev).2 = none ↔
        dev.configureOk = true ∧ dev.startOk = true) ∧
      (∀ b c, _restart_camera
          { dev with stopRecordingOk := b, stopOk := c } =
        _restart_camera dev) ∧
      (_restart_camera dev).1.take 2 = [CamOp.stopRecording, CamOp.stop] ∧
      (dev.configureOk = true → dev.startOk = true →
        (_restart_camera dev).1 =
          [CamOp.stopRecording, CamOp.stop, CamOp.configure, CamOp.start]) := by
  obtain ⟨a, b, c, d⟩ := dev
  cases c <;> cases d <;> simp [_restart_camera]

/-- Witness for C6 (amended) at a concrete device whose best-effort
steps fail but whose configure and start succeed. -/
theorem restart_camera_best_effort_witness :
    (_restart_camera ⟨false, false, true, true⟩).1 =
      [CamOp.stopRecording, CamOp.stop, CamOp.configure, CamOp.start] :=
  (restart_camera_best_effort ⟨false, false, true, true⟩).2.2.2 rfl rfl

/-- C8: `record_clip` sleeps for `max(1, duration)` seconds — the
duration is floored at one second, so zero or negative requests still
sleep for one second, and the sleep action performed on the successful
path uses exactly this clamped value. -/
theorem recSleep_floor (d : Int) :
    recSleep d = max 1 d ∧ 1 ≤ recSleep d ∧
      (d ≤ 0 → recSleep d = 1) ∧
      ClipAction.sleepFor (recSleep d) ∈
        (record_clip ⟨true, true, true⟩ false d "media" "t").2 := by
  refine ⟨rfl, le_max_left 1 d, fun h => max_eq_left (by omega), ?_⟩
  simp [record_clip]

/-- Witness for C8 at the concrete durations minus five and zero. -/
theorem recSleep_floor_witness :
    recSleep (-5) = 1 ∧ recSleep 0 = 1 ∧ 1 ≤ recSleep 30 :=
  ⟨(recSleep_floor (-5)).2.2.1 (by decide),
    (recSleep_floor 0).2.2.1 (by decide),
    (recSleep_floor 30).2.1⟩

/-- C5: `capture_still` returns the timestamped path under the media
directory; when the preview slot holds a frame it writes a copy of
that frame and makes no device call, and when the slot is empty it
pulls the device frame (under the camera lock) and still returns the
same valid path. -/
theorem capture_still_spec (baseDir : String) (s : CamState)
    (ts : String) :
    (capture_still baseDir s ts).path =
        baseDir ++ "/still_" ++ ts ++ ".jpg" ∧
      (∀ f, s.previewFrame = some f →
        (capture_still baseDir s ts).deviceCalled = false ∧
          (capture_still baseDir s ts).written = f) ∧
      (s.previewFrame = none →
        (capture_still baseDir s ts).deviceCalled = true ∧
          (capture_still baseDir s ts).written = s.deviceFrame) := by
  obtain ⟨pf, df⟩ := s
  cases pf <;> simp [capture_still]

/-- Witness for C5 at a concrete populated slot and a concrete empty
slot. -/
theorem capture_still_spec_witness :
    ((capture_still "media" ⟨some ⟨5⟩, ⟨7⟩⟩ "t").deviceCalled = false ∧
        (capture_still "media" ⟨some ⟨5⟩, ⟨7⟩⟩ "t").written = ⟨5⟩) ∧
      ((capture_still "media" ⟨none, ⟨7⟩⟩ "t").deviceCalled = true ∧
        (capture_still "media" ⟨none, ⟨7⟩⟩ "t").written = ⟨7⟩) :=
  ⟨(capture_still_spec "media" ⟨some ⟨5⟩, ⟨7⟩⟩ "t").2.1 ⟨5⟩ rfl,
    (capture_still_spec "media" ⟨none, ⟨7⟩⟩ "t").2.2 rfl⟩

/-- C7 counterexample: still file names have one-second resolution
(`still_%Y%m%d_%H%M%S.jpg`), so two `capture_still` calls within the
same second build the same path and `cv2.imwrite` overwrites: the
media directory ends up with one file, not two. -/
theorem capture_still_same_second_counterexample :
    ((capture_still_fs "media" ⟨some ⟨1⟩, ⟨2⟩⟩ "t"
        (capture_still_fs "media" ⟨some ⟨1⟩, ⟨2⟩⟩ "t" []).2).2).length = 1 := by
  decide

/-- C7 (amended): two `capture_still` calls with no new frame published
in between read the same source frame and, when their timestamp
strings differ, produce two files, each whose written content is the
most recently published frame. -/
theorem capture_still_idempotent_reread (baseDir : String) (s : CamState)
    (f : Frame) (ts1 ts2 : String) (h1 : s.previewFrame = some f)
    (h2 : ts1 ≠ ts2) :
    (capture_still_fs baseDir s ts2
        (capture_still_fs baseDir s ts1 []).2).2 =
      [(baseDir ++ "/still_" ++ ts1 ++ ".jpg", f),
        (baseDir ++ "/still_" ++ ts2 ++ ".jpg", f)] := by
  have hpath : baseDir ++ "/still_" ++ ts1 ++ ".jpg" ≠
      baseDir ++ "/still_" ++ ts2 ++ ".jpg" := by
    intro he
    apply h2
    have hd := congrArg String.data he
    simp only [String.data_append, List.append_assoc] at hd
    exact String.ext
      (List.append_cancel_right
        (List.append_cancel_left (List.append_cancel_left hd)))
  simp [capture_still_fs, capture_still, h1, writeFile, hpath]

/-- Witness for C7 (amended) at concrete frames and timestamps. -/
theorem capture_still_idempotent_reread_witness :
    (capture_still_fs "media" ⟨some ⟨1⟩, ⟨2⟩⟩ "b"
        (capture_still_fs "media" ⟨some ⟨1⟩, ⟨2⟩⟩ "a" []).2).2 =
      [("media" ++ "/still_" ++ "a" ++ ".jpg", ⟨1⟩),
        ("media" ++ "/still_" ++ "b" ++ ".jpg", ⟨1⟩)] :=
  capture_still_idempotent_reread "media" ⟨some ⟨1⟩, ⟨2⟩⟩ ⟨1⟩ "a" "b" rfl
    (by decide)

/-- Invariant of the motion loop: if the triggers so far are strictly
spaced by more than the cooldown window and each lies at least one
window below the current deadline, both facts are preserved by running
any further iterations. -/
lemma motionRun_spacing_inv (l : List (ℚ × Bool)) (s : MotionState)
    (hp : s.triggers.Pairwise
      (fun a b => a.1 + motionCooldownWindow < b.1))
    (hb : ∀ t ∈ s.triggers,
      t.1 + motionCooldownWindow ≤ s.coolDownUntil) :
    (motionRun s l).triggers.Pairwise
      (fun a b => a.1 + motionCooldownWindow < b.1) := by
  induction l generalizing s with
  | nil => exact hp
  | cons x rest ih =>
    obtain ⟨now, m⟩ := x
    simp only [motionRun]
    by_cases hc : m = true ∧ s.coolDownUntil < now
    · refine ih (motionIter s now m) ?_ ?_
      · rw [motionIter, if_pos hc]
        simp only [List.pairwise_append, List.pairwise_cons,
          List.mem_singleton]
        refine ⟨hp, by simp, ?_⟩
        intro a ha b hb2
        subst hb2
        exact lt_of_le_of_lt (hb a ha) hc.2
      · intro t ht
        rw [motionIter, if_pos hc] at ht ⊢
        rcases List.mem_append.mp ht with h | h
        · exact le_of_lt
            (lt_of_lt_of_le (lt_of_le_of_lt (hb t h) hc.2)
              (le_add_of_nonneg_right (by norm_num [motionCooldownWindow])))
        · rw [List.mem_singleton] at h
          subst h
          exact le_refl _
    · rw [motionIter, if_neg hc]
      exact ih s hp hb

/-- Every trigger produced by running the motion loop either was
already present or stems from an input iteration that detected motion
at that instant, with the fixed 30-second duration. -/
lemma motionRun_triggers_from (l : List (ℚ × Bool)) (s : MotionState) :
    ∀ t ∈ (motionRun s l).triggers,
      t ∈ s.triggers ∨
        ((t.1, true) ∈ l ∧ t.2 = motionClipDuration) := by
  induction l generalizing s with
  | nil => exact fun t ht => Or.inl ht
  | cons x rest ih =>
    obtain ⟨now, m⟩ := x
    intro t ht
    simp only [motionRun] at ht
    rcases ih (motionIter s now m) t ht with h1 | h2
    · by_cases hc : m = true ∧ s.coolDownUntil < now
      · rw [motionIter, if_pos hc] at h1
        rcases List.mem_append.mp h1 with h | h
        · exact Or.inl h
        · rw [List.mem_singleton] at h
          subst h
          exact Or.inr ⟨by rw [hc.1]; exact List.mem_cons_self _ _, rfl⟩
      · rw [motionIter, if_neg hc] at h1
        exact Or.inl h1
    · exact Or.inr ⟨List.mem_cons_of_mem _ h2.1, h2.2⟩

/-- C4: running `_motion_loop` from its initial state, any two
motion-triggered recording requests have trigger instants spaced at
least the cooldown window apart, every trigger stems from an iteration
that detected motion at that instant, and every triggered clip uses
the fixed 30-second duration, which equals the manual default. -/
theorem motion_trigger_rate_limited (inputs : List (ℚ × Bool)) :
    (motionRun motionInit inputs).triggers.Pairwise
        (fun a b => a.1 + motionCooldownWindow ≤ b.1) ∧
      (∀ t ∈ (motionRun motionInit inputs).triggers,
        (t.1, true) ∈ inputs ∧ t.2 = motionClipDuration) ∧
      motionClipDuration = defaultClipDuration := by
  refine ⟨?_, ?_, rfl⟩
  · exact (motionRun_spacing_inv inputs motionInit (by simp [motionInit])
      (by simp [motionInit])).imp le_of_lt
  · intro t ht
    rcases motionRun_triggers_from inputs motionInit t ht with h | h
    · simp [motionInit] at h
    · exact h

/-- C9: when the subprocess run by `_run` hits its timeout, `_run`
returns a structured failure result — `ok = false`, no return code,
the captured (truncated) stdout and stderr with the documented
defaults, the rounded elapsed seconds, and the quoted command line —
rather than letting the `TimeoutExpired` exception escape. -/
theorem run_timeout_structured (cmd : List String)
    (so se : Option String) (started now : ℚ) :
    (_run cmd (RunOutcome.timedOut so se) started now).ok = false ∧
      (_run cmd (RunOutcome.timedOut so se) started now).returncode =
        none ∧
      (_run cmd (RunOutcome.timedOut so se) started now).stdout =
        lastChars outputCap (pyOrString so "") ∧
      (_run cmd (RunOutcome.timedOut so se) started now).stderr =
        lastChars outputCap (pyOrString se "Timed out") ∧
      (_run cmd (RunOutcome.timedOut so se) started now).seconds =
        round2 (now - started) ∧
      (_run cmd (RunOutcome.timedOut so se) started now).cmd =
        joinQuoted cmd :=
  ⟨rfl, rfl, rfl, rfl, rfl, rfl⟩

/-- C10: for every command and every outcome — completion or timeout —
the stdout and stderr fields of the result are at most 12000
characters long and are suffixes (the trailing characters) of the
respective captured output. -/
theorem run_output_truncated (cmd : List String) (outcome : RunOutcome)
    (started now : ℚ) :
    (_run cmd outcome started now).stdout.length ≤ outputCap ∧
      (_run cmd outcome started now).stderr.length ≤ outputCap ∧
      (_run cmd outcome started now).stdout.data <:+
        (capturedStdout outcome).data ∧
      (_run cmd outcome started now).stderr.data <:+
        (capturedStderr outcome).data := by
  cases outcome <;>
    exact ⟨lastChars_length _ _, lastChars_length _ _,
      lastChars_suffix _ _, lastChars_suffix _ _⟩

end WildlifeCameras
